import Mathlib

/-!
Shallow embedding of the sexagenary relationship and luck-cycle engine
(the deterministic computational core of the saju service): the symbol
tables, the Ten-God resolver, the sexagenary cycle indexer, the pillar
builder, and the three luck-cycle projectors (Daeun / Saeun / Wolun).

Modelling conventions:
* JavaScript numbers are modelled as `Int` (or `Nat` for loop counters)
  and as `Rat` where fractional values occur (the Daeun starting age).
* The JavaScript remainder operator is truncated remainder, `Int.tmod`
  (wrapped as `jsMod`).
* `Array.prototype.indexOf` returns `-1` on a miss, modelled by
  `jsIndexOf`.
* An out-of-range array read (JavaScript `undefined`) is modelled by the
  default value of `List.getD` / `jsGetD`; every such read performed on
  the paths analysed below is proved (or checked by computation) to stay
  in range, so the choice of default is immaterial there.
-/

def GAN : List String := ["甲", "乙", "丙", "丁", "戊", "己", "庚", "辛", "壬", "癸"]

def ZHI : List String := ["子", "丑", "寅", "卯", "辰", "巳", "午", "未", "申", "酉", "戌", "亥"]

def GAN_KOR : List String := ["갑", "을", "병", "정", "무", "기", "경", "신", "임", "계"]

def ZHI_KOR : List String := ["자", "축", "인", "묘", "진", "사", "오", "미", "신", "유", "술", "해"]

inductive ElementType where
  | Wood | Fire | Earth | Metal | Water
deriving DecidableEq, Repr

def ELEMENT_MAP : List (String × ElementType) := [
  ("甲", .Wood), ("乙", .Wood), ("寅", .Wood), ("卯", .Wood),
  ("丙", .Fire), ("丁", .Fire), ("巳", .Fire), ("午", .Fire),
  ("戊", .Earth), ("己", .Earth), ("辰", .Earth), ("戌", .Earth), ("丑", .Earth), ("未", .Earth),
  ("庚", .Metal), ("辛", .Metal), ("申", .Metal), ("酉", .Metal),
  ("壬", .Water), ("癸", .Water), ("亥", .Water), ("子", .Water)]

def COLOR_MAP : ElementType → String
  | .Wood => "#4A7c59"
  | .Fire => "#D9534F"
  | .Earth => "#Eebb4d"
  | .Metal => "#Aaaaaa"
  | .Water => "#292b2c"

/-- Ten Gods lookup table, rows indexed by the Day stem ordinal and
columns by the target stem ordinal. -/
def TEN_GODS_MAP : List (List String) := [
  ["비견", "겁재", "식신", "상관", "편재", "정재", "편관", "정관", "편인", "정인"],
  ["겁재", "비견", "상관", "식신", "정재", "편재", "정관", "편관", "정인", "편인"],
  ["편인", "정인", "비견", "겁재", "식신", "상관", "편재", "정재", "편관", "정관"],
  ["정인", "편인", "겁재", "비견", "상관", "식신", "정재", "편재", "정관", "편관"],
  ["편관", "정관", "편인", "정인", "비견", "겁재", "식신", "상관", "편재", "정재"],
  ["정관", "편관", "정인", "편인", "겁재", "비견", "상관", "식신", "정재", "편재"],
  ["편재", "정재", "편관", "정관", "편인", "정인", "비견", "겁재", "식신", "상관"],
  ["정재", "편재", "정관", "편관", "정인", "편인", "겁재", "비견", "상관", "식신"],
  ["식신", "상관", "편재", "정재", "편관", "정관", "편인", "정인", "비견", "겁재"],
  ["상관", "식신", "정재", "편재", "정관", "편관", "정인", "편인", "겁재", "비견"]]

/-- Branch to its main-qi stem, used when a branch is compared as a stem. -/
def BRANCH_MAIN_QI : List (String × String) := [
  ("子", "癸"), ("丑", "己"), ("寅", "甲"), ("卯", "乙"), ("辰", "戊"), ("巳", "丙"),
  ("午", "丁"), ("未", "己"), ("申", "庚"), ("酉", "辛"), ("戌", "戊"), ("亥", "壬")]

/-- JavaScript remainder: truncated remainder on integers. -/
def jsMod (a b : ℤ) : ℤ := a.tmod b

/-- JavaScript `Array.prototype.indexOf`: index of the first occurrence,
`-1` when the element does not occur. -/
def jsIndexOf (l : List String) (x : String) : ℤ :=
  match l.indexOf? x with
  | some i => (i : ℤ)
  | none => -1

/-- Array read at a possibly negative JavaScript index; out-of-range
reads (JavaScript `undefined`) fall back to the default. -/
def jsGetD (l : List ℕ) (i : ℤ) (d : ℕ) : ℕ :=
  if 0 ≤ i then l.getD i.toNat d else d

/-- JavaScript `Math.round`: round half toward positive infinity. -/
def jsRound (q : ℚ) : ℤ := ⌊q + 1 / 2⌋

def getKoreanChar (hanja : String) : String :=
  match GAN.indexOf? hanja with
  | some ganIdx => GAN_KOR.getD ganIdx ""
  | none =>
    match ZHI.indexOf? hanja with
    | some zhiIdx => ZHI_KOR.getD zhiIdx ""
    | none => ""

def getTenGod (dayStem target : String) : String :=
  if dayStem = target then "비견"
  else
    let targetStem := if ZHI.contains target then (BRANCH_MAIN_QI.lookup target).getD "" else target
    match GAN.indexOf? dayStem, GAN.indexOf? targetStem with
    | some dayIdx, some targetIdx => (TEN_GODS_MAP.getD dayIdx []).getD targetIdx ""
    | some _, none => ""
    | none, _ => ""

/-- The scan inside `getGanZhiIndex`: first position `i < 60` whose
(stem, branch) pair matches the input, if any. -/
def findGanZhi (stem branch : String) : Option ℕ :=
  (List.range 60).find? (fun i => GAN.getD (i % 10) "" == stem && ZHI.getD (i % 12) "" == branch)

def getGanZhiIndex (stem branch : String) : ℕ :=
  (findGanZhi stem branch).getD 0

structure GanZhi where
  stem : String
  branch : String
deriving DecidableEq, Repr

def getGanZhiFromIndex (index : ℤ) : GanZhi :=
  let normalizedIndex := jsMod (jsMod index 60 + 60) 60
  { stem := GAN.getD (jsMod normalizedIndex 10).toNat ""
    branch := ZHI.getD (jsMod normalizedIndex 12).toNat "" }

inductive Gender where
  | male | female
deriving DecidableEq, Repr

/-- Direction of the Daeun walk (lines 144-148 of the source): forward
for a Yang year stem with a male subject or a Yin year stem with a
female subject, backward otherwise. -/
def isForwardDaeun (yearStem : String) (gender : Gender) : Bool :=
  let yearStemIdx := jsIndexOf GAN yearStem
  let isYangYear := jsMod yearStemIdx 2 == 0
  let isMale := gender == Gender.male
  (isYangYear && isMale) || (!isYangYear && !isMale)

def daysInMonth : List ℕ := [31, 28, 31, 30, 31, 30, 31, 31, 30, 31, 30, 31]

/-- Days from the birth day to the governing solar term, per the
simplified mid-month approximation of the source. -/
def daysToJeolgi (birthMonth birthDay : ℕ) : ℤ :=
  let d := jsRound ((daysInMonth.getD (birthMonth - 1) 0 : ℚ) / 2 - birthDay + 15)
  if d < 0 then |d| else d

/-- Fractional Daeun starting age: three days of solar-term distance
count as one year, rounded to one decimal place. -/
def daeunStartAge (birthMonth birthDay : ℕ) : ℚ :=
  (jsRound (((daysToJeolgi birthMonth birthDay : ℚ) / 3) * 10) : ℚ) / 10

structure DaeunEntry where
  startAge : ℚ
  endAge : ℤ
  stem : String
  branch : String
  stemKorean : String
  branchKorean : String
  startYear : ℤ
deriving DecidableEq, Repr

structure DaeunResult where
  daeun : List DaeunEntry
  startAge : ℚ
deriving DecidableEq, Repr

def calculateDaeun (birthYear : ℤ) (birthMonth birthDay : ℕ) (gender : Gender)
    (monthStem monthBranch yearStem : String) : DaeunResult :=
  let isForward := isForwardDaeun yearStem gender
  let monthGanZhiIdx := getGanZhiIndex monthStem monthBranch
  let startAge := daeunStartAge birthMonth birthDay
  let daeunList := (List.range 13).map (fun i : ℕ =>
    let ganZhiIdx : ℤ := if isForward then (monthGanZhiIdx : ℤ) + (i : ℤ) + 1 else (monthGanZhiIdx : ℤ) - (i : ℤ) - 1
    let gz := getGanZhiFromIndex ganZhiIdx
    let ageStart : ℚ := if i = 0 then startAge else (⌊startAge⌋ : ℚ) + (i : ℚ) * 10
    let ageEnd : ℤ := ⌊startAge⌋ + ((i : ℤ) + 1) * 10 - 1
    { startAge := ageStart, endAge := ageEnd, stem := gz.stem, branch := gz.branch,
      stemKorean := getKoreanChar gz.stem, branchKorean := getKoreanChar gz.branch,
      startYear := birthYear + ⌊ageStart⌋ : DaeunEntry })
  { daeun := daeunList, startAge := startAge }

structure SaeunEntry where
  year : ℤ
  age : ℕ
  stem : String
  branch : String
  stemKorean : String
  branchKorean : String
deriving DecidableEq, Repr

def calculateSaeun (birthYear : ℤ) : List SaeunEntry :=
  (List.range 110).map (fun k =>
    let age : ℕ := k + 1
    let currentYear : ℤ := birthYear + (age : ℤ) - 1
    let yearOffset := currentYear - 1984
    let ganZhiIdx := jsMod (jsMod yearOffset 60 + 60) 60
    let stem := GAN.getD (jsMod ganZhiIdx 10).toNat ""
    let branch := ZHI.getD (jsMod ganZhiIdx 12).toNat ""
    { year := currentYear, age := age, stem := stem, branch := branch,
      stemKorean := getKoreanChar stem, branchKorean := getKoreanChar branch })

structure WolunEntry where
  year : ℤ
  month : ℕ
  stem : String
  branch : String
  stemKorean : String
  branchKorean : String
deriving DecidableEq, Repr

def calculateWolun (birthYear : ℤ) : List WolunEntry :=
  (List.range 60).flatMap (fun yearOffset =>
    (List.range 12).map (fun mIdx =>
      let monthNum := mIdx + 1
      let currentYear : ℤ := birthYear + yearOffset
      let yearGanZhiIdx := jsMod (jsMod (currentYear - 1984) 60 + 60) 60
      let yearGan := GAN.getD (jsMod yearGanZhiIdx 10).toNat ""
      let yearGanIdx := jsIndexOf GAN yearGan
      let monthStemStartIdx := jsGetD [2, 4, 6, 8, 0, 2, 4, 6, 8, 0] yearGanIdx 0
      let monthStemIdx := (monthStemStartIdx + monthNum - 1) % 10
      let monthStem := GAN.getD monthStemIdx ""
      let monthBranchIdx := (monthNum + 1) % 12
      let monthBranch := ZHI.getD monthBranchIdx ""
      { year := currentYear, month := monthNum, stem := monthStem, branch := monthBranch,
        stemKorean := getKoreanChar monthStem, branchKorean := getKoreanChar monthBranch }))

structure Pillar where
  stem : String
  stemKorean : String
  stemTenGod : String
  branch : String
  branchKorean : String
  branchTenGod : String
  element : ElementType
  color : String
deriving DecidableEq, Repr

/-- Pillar builder from the analysis routine; `dayStem` is the Day
Master stem captured by the closure. The source reads
`ELEMENT_MAP[stem] || "Earth"` for the element and
`COLOR_MAP[ELEMENT_MAP[stem]]` for the color; a missing element key
makes the latter `undefined`, modelled as the empty string. -/
def createPillar (dayStem stem branch : String) : Pillar :=
  { stem := stem,
    stemKorean := getKoreanChar stem,
    stemTenGod := if stem = dayStem then "일원" else getTenGod dayStem stem,
    branch := branch,
    branchKorean := getKoreanChar branch,
    branchTenGod := getTenGod dayStem branch,
    element := (ELEMENT_MAP.lookup stem).getD ElementType.Earth,
    color := match ELEMENT_MAP.lookup stem with
             | some e => COLOR_MAP e
             | none => "" }

/-! ### Specification-side definitions

These definitions transcribe the formulas exactly as the specification
words them; the refinement theorems below compare them against the
embedded source functions. -/

/-- Modelled from the spec: the year stem ordinal as §4.6 derives it,
the year-cycle position of the calendar year reduced mod 10. -/
def yearStemOrdinalSpec (y : ℤ) : ℕ :=
  (jsMod (jsMod (y - 1984) 60 + 60) 60).toNat % 10

/-- Modelled from the spec: the Five Tigers correspondence keyed on the
year stem ordinal, stem ordinals 0 and 5 to 2, 1 and 6 to 4, 2 and 7 to
6, 3 and 8 to 8, 4 and 9 to 0. -/
def fiveTigersStartSpec (g : ℕ) : ℕ :=
  if g = 0 ∨ g = 5 then 2
  else if g = 1 ∨ g = 6 then 4
  else if g = 2 ∨ g = 7 then 6
  else if g = 3 ∨ g = 8 then 8
  else 0

/-- Month-cycle entry for calendar year `birthYear + yearOffset` and
month `m`, with the stem and branch indices the specification states:
stem index `(fiveTigersStart + m - 1) % 10`, branch index
`(m + 1) % 12`. -/
def wolunEntrySpec (birthYear : ℤ) (yearOffset m : ℕ) : WolunEntry :=
  let y : ℤ := birthYear + yearOffset
  let stemIdx := (fiveTigersStartSpec (yearStemOrdinalSpec y) + m - 1) % 10
  let branchIdx := (m + 1) % 12
  let stem := GAN.getD stemIdx ""
  let branch := ZHI.getD branchIdx ""
  { year := y, month := m, stem := stem, branch := branch,
    stemKorean := getKoreanChar stem, branchKorean := getKoreanChar branch }

/-- Year-cycle entry for nominal age `a` as the specification states it:
calendar year `birthYear + a - 1`, stem and branch the pair at cycle
position `((year - 1984) mod 60 + 60) mod 60`. -/
def saeunEntrySpec (birthYear : ℤ) (a : ℕ) : SaeunEntry :=
  let year : ℤ := birthYear + (a : ℤ) - 1
  let pos : ℤ := jsMod (jsMod (year - 1984) 60 + 60) 60
  let gz := getGanZhiFromIndex pos
  { year := year, age := a, stem := gz.stem, branch := gz.branch,
    stemKorean := getKoreanChar gz.stem, branchKorean := getKoreanChar gz.branch }

/-- Decade-cycle entry `i` (0-indexed) as the specification states it:
pair at `monthPosition + i + 1` (forward) or `monthPosition - i - 1`
(backward), starting age `startAge` for the first entry and
`floor startAge + i * 10` afterwards, ending age
`floor startAge + (i + 1) * 10 - 1`, starting calendar year
`birthYear + floor (starting age)`. -/
def daeunEntrySpec (birthYear : ℤ) (startAge : ℚ) (monthPosition : ℕ) (forward : Bool)
    (i : ℕ) : DaeunEntry :=
  let gz := getGanZhiFromIndex
    (if forward then (monthPosition : ℤ) + (i : ℤ) + 1 else (monthPosition : ℤ) - (i : ℤ) - 1)
  let ageStart : ℚ := if i = 0 then startAge else (⌊startAge⌋ : ℚ) + (i : ℚ) * 10
  { startAge := ageStart,
    endAge := ⌊startAge⌋ + ((i : ℤ) + 1) * 10 - 1,
    stem := gz.stem, branch := gz.branch,
    stemKorean := getKoreanChar gz.stem, branchKorean := getKoreanChar gz.branch,
    startYear := birthYear + ⌊ageStart⌋ }

/-! ### Arithmetic and indexing helper lemmas -/

theorem neg_lt_tmod_sixty (a : ℤ) : -60 < a.tmod 60 := by
  match a with
  | Int.ofNat n =>
      have h : (0 : ℤ) ≤ (Int.ofNat n).tmod 60 := Int.tmod_nonneg 60 (Int.ofNat_nonneg n)
      omega
  | Int.negSucc m =>
      have h : Int.tmod (Int.negSucc m) 60 = -(((m + 1) % 60 : ℕ) : ℤ) := rfl
      have h2 : (m + 1) % 60 < 60 := Nat.mod_lt _ (by omega)
      omega

theorem tmod_norm_sixty (a : ℤ) : Int.tmod (Int.tmod a 60 + 60) 60 = a % 60 := by
  have hd : Int.tmod a 60 = a - 60 * a.tdiv 60 := Int.tmod_def a 60
  have h1 : Int.tmod a 60 < 60 := Int.tmod_lt_of_pos a (by omega)
  have h2 : -60 < Int.tmod a 60 := neg_lt_tmod_sixty a
  have h3 : (0 : ℤ) ≤ Int.tmod a 60 + 60 := by omega
  rw [Int.tmod_eq_emod h3 (by omega), hd]
  omega

theorem jsMod_norm (a : ℤ) : jsMod (jsMod a 60 + 60) 60 = a % 60 :=
  tmod_norm_sixty a

theorem getGanZhiFromIndex_eq_of_lt {p : ℤ} (h0 : 0 ≤ p) (h60 : p < 60) :
    getGanZhiFromIndex p =
      { stem := GAN.getD (jsMod p 10).toNat "", branch := ZHI.getD (jsMod p 12).toNat "" } := by
  simp only [getGanZhiFromIndex]
  have h : jsMod (jsMod p 60 + 60) 60 = p := by
    rw [jsMod_norm]; omega
  rw [h]

theorem getGanZhiFromIndex_norm (a : ℤ) :
    getGanZhiFromIndex (jsMod (jsMod a 60 + 60) 60) =
      { stem := GAN.getD (jsMod (jsMod (jsMod a 60 + 60) 60) 10).toNat ""
        branch := ZHI.getD (jsMod (jsMod (jsMod a 60 + 60) 60) 12).toNat "" } := by
  apply getGanZhiFromIndex_eq_of_lt
  · rw [jsMod_norm]
    exact Int.emod_nonneg a (by omega)
  · rw [jsMod_norm]
    exact Int.emod_lt_of_pos a (by omega)

theorem jsMod_cast_ten (n : ℕ) : (jsMod (n : ℤ) 10).toNat = n % 10 := by
  unfold jsMod
  rw [Int.tmod_eq_emod (Int.ofNat_nonneg n) (by omega)]
  omega

theorem jsMod_cast_twelve (n : ℕ) : (jsMod (n : ℤ) 12).toNat = n % 12 := by
  unfold jsMod
  rw [Int.tmod_eq_emod (Int.ofNat_nonneg n) (by omega)]
  omega

theorem tenGodsRow_ne_ilwon (i j : ℕ) : (TEN_GODS_MAP.getD i []).getD j "" ≠ "일원" := by
  by_cases hi : i < 10
  · by_cases hj : j < 10
    · have hall : ∀ a, a < 10 → ∀ b, b < 10 → (TEN_GODS_MAP.getD a []).getD b "" ≠ "일원" := by
        decide
      exact hall i hi j hj
    · have hlen : (TEN_GODS_MAP.getD i []).length ≤ j := by
        have h10 : (TEN_GODS_MAP.getD i []).length = 10 := by
          interval_cases i <;> rfl
        omega
      rw [List.getD_eq_default _ _ hlen]
      decide
  · have hlen : TEN_GODS_MAP.length ≤ i := by
      have h10 : TEN_GODS_MAP.length = 10 := rfl
      omega
    rw [List.getD_eq_default _ _ hlen, List.getD_eq_default _ _ (Nat.zero_le j)]
    decide

theorem getTenGod_ne_ilwon (dayStem target : String) : getTenGod dayStem target ≠ "일원" := by
  simp only [getTenGod]
  split
  · decide
  · split
    · exact tenGodsRow_ne_ilwon _ _
    · decide
    · decide

theorem calculateSaeun_eq_spec (birthYear : ℤ) :
    calculateSaeun birthYear = (List.range 110).map (fun k => saeunEntrySpec birthYear (k + 1)) := by
  unfold calculateSaeun
  apply List.map_congr_left
  intro k _
  simp only [saeunEntrySpec, getGanZhiFromIndex_norm]

theorem jsIndexOf_GAN_getD (k : ℕ) (hk : k < 10) :
    jsIndexOf GAN (GAN.getD k "") = (k : ℤ) := by
  have hall : ∀ a : ℕ, a < 10 → jsIndexOf GAN (GAN.getD a "") = (a : ℤ) := by decide
  exact hall k hk

theorem jsGetD_tigers (k : ℕ) (hk : k < 10) :
    jsGetD [2, 4, 6, 8, 0, 2, 4, 6, 8, 0] (k : ℤ) 0 = fiveTigersStartSpec k := by
  have hall : ∀ a : ℕ, a < 10 → jsGetD [2, 4, 6, 8, 0, 2, 4, 6, 8, 0] (a : ℤ) 0 = fiveTigersStartSpec a := by
    decide
  exact hall k hk

theorem calculateWolun_eq_spec (birthYear : ℤ) :
    calculateWolun birthYear =
      (List.range 60).flatMap (fun yearOffset =>
        (List.range 12).map (fun mIdx => wolunEntrySpec birthYear yearOffset (mIdx + 1))) := by
  unfold calculateWolun
  congr 1
  funext yearOffset
  apply List.map_congr_left
  intro mIdx _
  simp only [wolunEntrySpec, yearStemOrdinalSpec]
  set a := birthYear + (yearOffset : ℤ) - 1984 with ha
  have h2 : 0 ≤ a % 60 := Int.emod_nonneg a (by omega)
  have h3 : a % 60 < 60 := Int.emod_lt_of_pos a (by omega)
  obtain ⟨n, hn⟩ : ∃ n : ℕ, a % 60 = (n : ℤ) := ⟨(a % 60).toNat, (Int.toNat_of_nonneg h2).symm⟩
  have hn60 : n < 60 := by omega
  rw [jsMod_norm, hn, jsMod_cast_ten, jsIndexOf_GAN_getD (n % 10) (Nat.mod_lt _ (by omega)),
    jsGetD_tigers (n % 10) (Nat.mod_lt _ (by omega))]
  simp

theorem parity_pair_exists : ∀ s : ℕ, s < 10 → ∀ b : ℕ, b < 12 → s % 2 = b % 2 →
    ∃ i : ℕ, i < 60 ∧ i % 10 = s ∧ i % 12 = b := by
  decide

/-! ### Claim theorems -/

/-- C1, counterexample: the specification reserves the Self label 일원
for the Day pillar slot and says an identical-valued stem in another
pillar gets the Companion label 비견; but building a (non-Day) pillar
whose stem 甲 equals the Day Master stem 甲 yields stemTenGod 일원, not
비견. -/
theorem createPillar_equal_stem_counterexample :
    (createPillar "甲" "甲" "子").stemTenGod = "일원" ∧
      (createPillar "甲" "甲" "子").stemTenGod ≠ "비견" := by
  constructor
  · rfl
  · decide

/-- C1, amended: createPillar applies the Self label 일원 by stem value
equality, not by pillar slot: the built pillar carries stemTenGod 일원
exactly when its stem equals the Day Master stem (whichever calendar
slot it is built for); a pillar whose stem differs never carries 일원,
since getTenGod never returns it. -/
theorem createPillar_stemTenGod_self_iff (dayStem stem branch : String) :
    (createPillar dayStem stem branch).stemTenGod = "일원" ↔ stem = dayStem := by
  constructor
  · intro h
    by_contra hne
    have hgt : (createPillar dayStem stem branch).stemTenGod = getTenGod dayStem stem := by
      simp [createPillar, hne]
    rw [hgt] at h
    exact getTenGod_ne_ilwon dayStem stem h
  · intro h
    simp [createPillar, h]

/-- C2: cycle round-trip: for every position p with 0 ≤ p ≤ 59, feeding
the stem and branch returned by getGanZhiFromIndex p back into
getGanZhiIndex yields exactly p. -/
theorem getGanZhiIndex_roundtrip : ∀ p : Fin 60,
    getGanZhiIndex (getGanZhiFromIndex ((p : ℕ) : ℤ)).stem
      (getGanZhiFromIndex ((p : ℕ) : ℤ)).branch = (p : ℕ) := by
  decide

/-- C7: cycle closure: for every integer p, including negative p,
getGanZhiFromIndex (p + 60) returns the same pair as
getGanZhiFromIndex p, because the position is first normalized into
0..59 by ((p mod 60) + 60) mod 60. -/
theorem getGanZhiFromIndex_period (p : ℤ) :
    getGanZhiFromIndex (p + 60) = getGanZhiFromIndex p := by
  simp only [getGanZhiFromIndex]
  have h : jsMod (jsMod (p + 60) 60 + 60) 60 = jsMod (jsMod p 60 + 60) 60 := by
    rw [jsMod_norm, jsMod_norm]
    omega
  rw [h]

/-- C8: Ten-God symmetry-breaking: for every stem s in the 10-stem set,
getTenGod s s returns the fixed Companion label 비견, never the Self
label 일원. -/
theorem getTenGod_self (s : String) (_hs : s ∈ GAN) :
    getTenGod s s = "비견" ∧ getTenGod s s ≠ "일원" :=
  ⟨by simp [getTenGod], getTenGod_ne_ilwon s s⟩

/-- C8 witness at the concrete stem 甲. -/
theorem getTenGod_self_witness :
    getTenGod "甲" "甲" = "비견" ∧ getTenGod "甲" "甲" ≠ "일원" :=
  getTenGod_self "甲" (by decide)

/-- C9: indexer fallback: any (stem, branch) pair that matches no
position of the 60-term cycle makes getGanZhiIndex return the default
position 0 rather than signal an error. -/
theorem getGanZhiIndex_fallback (stem branch : String)
    (h : ∀ i : ℕ, i < 60 → ¬ (GAN.getD (i % 10) "" = stem ∧ ZHI.getD (i % 12) "" = branch)) :
    getGanZhiIndex stem branch = 0 := by
  have hn : findGanZhi stem branch = none := by
    unfold findGanZhi
    rw [List.find?_eq_none]
    intro i hi
    have hilt : i < 60 := List.mem_range.mp hi
    intro hcontra
    simp only [Bool.and_eq_true, beq_iff_eq] at hcontra
    exact h i hilt hcontra
  unfold getGanZhiIndex
  rw [hn]
  rfl

/-- C9 witness: 甲丑 is a valid-symbol pair of mismatched parity, hence
absent from the cycle, and the indexer returns 0 on it. -/
theorem getGanZhiIndex_fallback_witness :
    (∀ i : ℕ, i < 60 → ¬ (GAN.getD (i % 10) "" = "甲" ∧ ZHI.getD (i % 12) "" = "丑")) ∧
      getGanZhiIndex "甲" "丑" = 0 :=
  ⟨by decide, getGanZhiIndex_fallback "甲" "丑" (by decide)⟩

/-- C3: month-cycle correctness: for every birth year, calculateWolun
returns exactly 720 entries covering years Y..Y+59 with 12 entries per
year in month order 1..12, the entry for year y and month m having stem
index (fiveTigersStart + m - 1) mod 10 (Five Tigers rule keyed on the
year stem ordinal) and branch index (m + 1) mod 12. -/
theorem calculateWolun_correct (birthYear : ℤ) :
    (calculateWolun birthYear).length = 720 ∧
    calculateWolun birthYear =
      (List.range 60).flatMap (fun yearOffset =>
        (List.range 12).map (fun mIdx => wolunEntrySpec birthYear yearOffset (mIdx + 1))) := by
  refine ⟨?_, calculateWolun_eq_spec birthYear⟩
  rw [calculateWolun_eq_spec]
  simp only [List.length_flatMap, Function.comp_def, List.length_map, List.length_range]
  rfl

/-- C4: decade-cycle entries: calculateDaeun returns exactly 13 entries,
entry i holding the pair at monthPosition + i + 1 (forward) or
monthPosition - i - 1 (backward), starting age startAge for i = 0 and
floor startAge + i * 10 otherwise, ending age
floor startAge + (i + 1) * 10 - 1, and starting calendar year
birthYear + floor (its starting age). -/
theorem calculateDaeun_entries (birthYear : ℤ) (birthMonth birthDay : ℕ) (gender : Gender)
    (monthStem monthBranch yearStem : String) :
    (calculateDaeun birthYear birthMonth birthDay gender monthStem monthBranch yearStem).daeun.length = 13 ∧
    (calculateDaeun birthYear birthMonth birthDay gender monthStem monthBranch yearStem).daeun =
      (List.range 13).map
        (daeunEntrySpec birthYear (daeunStartAge birthMonth birthDay)
          (getGanZhiIndex monthStem monthBranch) (isForwardDaeun yearStem gender)) := by
  have key : (calculateDaeun birthYear birthMonth birthDay gender monthStem monthBranch yearStem).daeun =
      (List.range 13).map
        (daeunEntrySpec birthYear (daeunStartAge birthMonth birthDay)
          (getGanZhiIndex monthStem monthBranch) (isForwardDaeun yearStem gender)) := by
    simp only [calculateDaeun]
    apply List.map_congr_left
    intro i _
    simp only [daeunEntrySpec]
  refine ⟨?_, key⟩
  rw [key]
  simp

/-- C5: year-cycle correctness and anchor: calculateSaeun returns
exactly 110 entries, one per age a from 1 to 110 in order, the entry
for age a having calendar year birthYear + a - 1 and the pair at cycle
position ((year - 1984) mod 60 + 60) mod 60; in particular any entry
for calendar year 1984 carries stem 甲 (index 0) and branch 子
(index 0). -/
theorem calculateSaeun_correct (birthYear : ℤ) :
    (calculateSaeun birthYear).length = 110 ∧
    calculateSaeun birthYear = (List.range 110).map (fun k => saeunEntrySpec birthYear (k + 1)) ∧
    ∀ e ∈ calculateSaeun birthYear, e.year = 1984 → e.stem = "甲" ∧ e.branch = "子" := by
  refine ⟨?_, calculateSaeun_eq_spec birthYear, ?_⟩
  · rw [calculateSaeun_eq_spec]
    simp
  · intro e he hy
    rw [calculateSaeun_eq_spec] at he
    obtain ⟨k, hk, rfl⟩ := List.mem_map.mp he
    simp only [saeunEntrySpec] at hy ⊢
    have h0 : birthYear + ((k + 1 : ℕ) : ℤ) - 1 - 1984 = 0 := by omega
    rw [h0]
    constructor <;> rfl

/-- C5 witness: the age-1 entry of a 1984 birth year is the anchor
year 1984 and carries the 甲子 pair. -/
theorem calculateSaeun_correct_witness :
    ({ year := 1984, age := 1, stem := "甲", branch := "子",
       stemKorean := "갑", branchKorean := "자" } : SaeunEntry).stem = "甲" ∧
    ({ year := 1984, age := 1, stem := "甲", branch := "子",
       stemKorean := "갑", branchKorean := "자" } : SaeunEntry).branch = "子" :=
  (calculateSaeun_correct 1984).2.2 _ (by decide) rfl

/-- C6: decade direction rule: for every stem of the 10-stem set and
gender, the direction flag used by calculateDaeun is forward exactly
when the year stem ordinal is even and the subject male, or the ordinal
is odd and the subject female. -/
theorem isForwardDaeun_direction (yearStem : String) (gender : Gender) (h : yearStem ∈ GAN) :
    isForwardDaeun yearStem gender = true ↔
      (GAN.indexOf yearStem % 2 = 0 ∧ gender = Gender.male) ∨
      (GAN.indexOf yearStem % 2 = 1 ∧ gender = Gender.female) := by
  fin_cases h <;> cases gender <;> decide

/-- C6 witness: Yang year stem 甲 with a male subject walks forward. -/
theorem isForwardDaeun_direction_witness :
    isForwardDaeun "甲" Gender.male = true :=
  (isForwardDaeun_direction "甲" Gender.male (by decide)).mpr (Or.inl ⟨by decide, rfl⟩)

/-- C10: every entry emitted by calculateWolun has stem and branch
indices of equal parity, hence is one of the 60 valid sexagenary
combinations, and the indexer scan finds it (the defensive position-0
fallback is never taken). -/
theorem calculateWolun_entries_valid (birthYear : ℤ) (e : WolunEntry)
    (he : e ∈ calculateWolun birthYear) :
    (∃ s b : ℕ, s < 10 ∧ b < 12 ∧ s % 2 = b % 2 ∧
      e.stem = GAN.getD s "" ∧ e.branch = ZHI.getD b "") ∧
    (findGanZhi e.stem e.branch).isSome = true := by
  rw [calculateWolun_eq_spec] at he
  obtain ⟨yo, hyo, hmem⟩ := List.mem_flatMap.mp he
  obtain ⟨mIdx, hm, rfl⟩ := List.mem_map.mp hmem
  simp only [wolunEntrySpec]
  set g := yearStemOrdinalSpec (birthYear + (yo : ℕ)) with hg
  have hglt : g < 10 := by
    rw [hg]
    exact Nat.mod_lt _ (by omega)
  have hev : fiveTigersStartSpec g % 2 = 0 := by
    have hall : ∀ a : ℕ, a < 10 → fiveTigersStartSpec a % 2 = 0 := by decide
    exact hall g hglt
  set s := (fiveTigersStartSpec g + (mIdx + 1) - 1) % 10 with hs
  set b := ((mIdx + 1) + 1) % 12 with hb
  have hslt : s < 10 := by rw [hs]; exact Nat.mod_lt _ (by omega)
  have hblt : b < 12 := by rw [hb]; exact Nat.mod_lt _ (by omega)
  have hpar : s % 2 = b % 2 := by
    rw [hs, hb]
    omega
  obtain ⟨i, hi60, his, hib⟩ := parity_pair_exists s hslt b hblt hpar
  constructor
  · exact ⟨s, b, hslt, hblt, hpar, rfl, rfl⟩
  · unfold findGanZhi
    rw [List.find?_isSome]
    refine ⟨i, List.mem_range.mpr hi60, ?_⟩
    rw [his, hib]
    simp

/-- C10 witness: the first month entry of birth year 1990 (戊寅, the
Tiger month of the 庚午 year) is a valid cycle pair and is found by the
indexer scan. -/
theorem calculateWolun_entries_valid_witness :
    (∃ s b : ℕ, s < 10 ∧ b < 12 ∧ s % 2 = b % 2 ∧
      ({ year := 1990, month := 1, stem := "戊", branch := "寅", stemKorean := "무", branchKorean := "인" } : WolunEntry).stem = GAN.getD s "" ∧
      ({ year := 1990, month := 1, stem := "戊", branch := "寅", stemKorean := "무", branchKorean := "인" } : WolunEntry).branch = ZHI.getD b "") ∧
    (findGanZhi ({ year := 1990, month := 1, stem := "戊", branch := "寅", stemKorean := "무", branchKorean := "인" } : WolunEntry).stem ({ year := 1990, month := 1, stem := "戊", branch := "寅", stemKorean := "무", branchKorean := "인" } : WolunEntry).branch).isSome = true :=
  calculateWolun_entries_valid 1990 _ (by decide)
